import Mathlib

/-
Verification of the compute-service ingestion pipeline (src/compute_service/prepare.py)
of the PodYapolskiy/search repository.

The embedding is a shallow one: the Qdrant vector store is a list of indexed
records, the filesystem text cache is an association list, the dense and sparse
encoders are abstract functions, and effectful calls are made explicit by
threading state and by recording the write operations a call performs.
Parts of the repository that prepare.py imports but whose sources are not
available (the MoodleFileObject schema, the meta-prefix preamble, the chunker
and text cleaner, the extraction-version constant) are modelled from the spec
as abstract parameters or plainly documented definitions.
-/

namespace Prepare

/-- Composite document identity key: the payload field named document-ref in
prepare.py, with one subfield per component (course_id, module_id, filename). -/
structure DocumentRef where
  course_id : Int
  module_id : Int
  filename : String
deriving DecidableEq, Repr

/-- Chunk sequence-number payload: the field named chunk-ref in prepare.py. -/
structure ChunkRef where
  chunk_number : Nat
deriving DecidableEq, Repr

/-- One chunk dictionary as built by object_pipeline (prepare.py lines 111-124):
text content, document-ref and chunk-ref. -/
structure Chunk where
  text : String
  document_ref : DocumentRef
  chunk_ref : ChunkRef
deriving DecidableEq, Repr

/-- One record of the Qdrant collection: the chunk payload plus one dense and one
sparse vector. The vector types D and S are abstract. -/
structure IndexedRecord (D S : Type) where
  payload : Chunk
  dense : D
  sparse : S
deriving DecidableEq

/-- The duplicates filter built in save_file_chunks_to_qdrant (prepare.py lines
132-137): a conjunction of three field match conditions, one per entry of the
document-ref of the first chunk of the batch. -/
def recordMatches {D S : Type} (ref : DocumentRef) (r : IndexedRecord D S) : Bool :=
  r.payload.document_ref.course_id == ref.course_id &&
  r.payload.document_ref.module_id == ref.module_id &&
  r.payload.document_ref.filename == ref.filename

/-- Write-side operations save_file_chunks_to_qdrant can perform against the
store and the encoders, in the order the source performs them: delete by the
duplicates filter, dense encoding, sparse encoding, batch upload. Counting
matching records (qdrant.count) is a read and is not recorded here. -/
inductive StoreOp (D S : Type) where
  | deleteByFilter (ref : DocumentRef)
  | encodeDense (texts : List String)
  | encodeSparse (texts : List String)
  | uploadCollection (records : List (IndexedRecord D S))
deriving DecidableEq

/-- Result of one save_file_chunks_to_qdrant call: the store after the call and
the trace of write operations performed during the call. -/
structure SaveResult (D S : Type) where
  store : List (IndexedRecord D S)
  ops : List (StoreOp D S)
deriving DecidableEq

/-- The record uploaded for one chunk: the chunk as payload together with the
dense and sparse vectors of its text, as paired positionally by the zip in
prepare.py lines 160-164. -/
def mkRecord {D S : Type} (dE : String → D) (sE : String → S) (c : Chunk) :
    IndexedRecord D S :=
  ⟨c, dE c.text, sE c.text⟩

/-- Embedding of save_file_chunks_to_qdrant (prepare.py lines 128-165). Empty
batch: return immediately. Otherwise build the duplicates filter from the first
chunk's document-ref, count matching records, and if the count equals the batch
length return without writing; otherwise delete all matching records, encode all
texts densely and sparsely, and upload the fresh records. -/
def save_file_chunks_to_qdrant {D S : Type} (dE : String → D) (sE : String → S)
    (store : List (IndexedRecord D S)) (chunks : List Chunk) : SaveResult D S :=
  match chunks with
  | [] => ⟨store, []⟩
  | c0 :: rest =>
    let ref := c0.document_ref
    let exact_match := (store.filter (recordMatches ref)).length
    if exact_match = (c0 :: rest).length then
      ⟨store, []⟩
    else
      let remaining := store.filter (fun r => !(recordMatches ref r))
      let texts := (c0 :: rest).map (fun c => c.text)
      let fresh := (c0 :: rest).map (mkRecord dE sE)
      ⟨remaining ++ fresh,
        [StoreOp.deleteByFilter ref, StoreOp.encodeDense texts,
         StoreOp.encodeSparse texts, StoreOp.uploadCollection fresh]⟩

/-- The three-field duplicates filter matches a record exactly when the record's
document-ref equals the batch's document-ref. -/
theorem recordMatches_iff {D S : Type} (ref : DocumentRef) (r : IndexedRecord D S) :
    recordMatches ref r = true ↔ r.payload.document_ref = ref := by
  cases h : r.payload.document_ref
  cases ref
  simp [recordMatches, h, DocumentRef.mk.injEq, and_assoc]

theorem filter_filter_not {α : Type} (p : α → Bool) (l : List α) :
    (l.filter (fun x => !(p x))).filter p = [] := by
  induction l with
  | nil => rfl
  | cons a t ih =>
    by_cases h : p a = true
    · simp [List.filter_cons, h, ih]
    · simp only [Bool.not_eq_true] at h
      simp [List.filter_cons, h, ih]

/-- Claim C2: when the count of pre-existing records matching the batch's
document-ref equals the batch length, save_file_chunks_to_qdrant performs no
delete, no encoding and no upload, and leaves the store unchanged. -/
theorem upsert_count_match_is_noop {D S : Type} (dE : String → D) (sE : String → S)
    (store : List (IndexedRecord D S)) (c0 : Chunk) (rest : List Chunk)
    (hcount : (store.filter (recordMatches c0.document_ref)).length = (c0 :: rest).length) :
    save_file_chunks_to_qdrant dE sE store (c0 :: rest) = ⟨store, []⟩ := by
  simp [save_file_chunks_to_qdrant, hcount]

/-- Sample chunk used by concrete witnesses. -/
def chunkA : Chunk := ⟨"alpha text", ⟨1, 2, "a.pdf"⟩, ⟨0⟩⟩

/-- Second sample chunk with the same document-ref as chunkA. -/
def chunkB : Chunk := ⟨"beta text", ⟨1, 2, "a.pdf"⟩, ⟨1⟩⟩

/-- Sample stale chunk under the same document-ref, standing for a leftover
record of a previous indexing run. -/
def chunkStale : Chunk := ⟨"old text", ⟨1, 2, "a.pdf"⟩, ⟨0⟩⟩

/-- Concrete stand-in encoder mapping a text to its length. -/
def natEnc : String → Nat := fun s => s.length

theorem upsert_count_match_is_noop_witness :
    save_file_chunks_to_qdrant natEnc natEnc [mkRecord natEnc natEnc chunkStale] [chunkA] =
      ⟨[mkRecord natEnc natEnc chunkStale], []⟩ :=
  upsert_count_match_is_noop natEnc natEnc [mkRecord natEnc natEnc chunkStale] chunkA []
    (by decide)

/-- Claim C1: for a non-empty batch sharing one document-ref whose pre-existing
matching count differs from the batch length, after the call the store is the
previously non-matching records followed by the fresh records; the records
matching the document-ref are exactly the batch's chunks with their dense and
sparse vectors; and the operation trace deletes by the filter before encoding
and uploading the fresh set. -/
theorem upsert_count_mismatch_replaces {D S : Type} (dE : String → D) (sE : String → S)
    (store : List (IndexedRecord D S)) (c0 : Chunk) (rest : List Chunk)
    (hsame : ∀ c ∈ c0 :: rest, c.document_ref = c0.document_ref)
    (hcount : (store.filter (recordMatches c0.document_ref)).length ≠ (c0 :: rest).length) :
    (save_file_chunks_to_qdrant dE sE store (c0 :: rest)).store =
        store.filter (fun r => !(recordMatches c0.document_ref r))
          ++ (c0 :: rest).map (mkRecord dE sE)
    ∧ (save_file_chunks_to_qdrant dE sE store (c0 :: rest)).store.filter
        (recordMatches c0.document_ref) = (c0 :: rest).map (mkRecord dE sE)
    ∧ (save_file_chunks_to_qdrant dE sE store (c0 :: rest)).ops =
        [StoreOp.deleteByFilter c0.document_ref,
         StoreOp.encodeDense ((c0 :: rest).map (fun c => c.text)),
         StoreOp.encodeSparse ((c0 :: rest).map (fun c => c.text)),
         StoreOp.uploadCollection ((c0 :: rest).map (mkRecord dE sE))] := by
  have hfreshAll : ∀ r ∈ (c0 :: rest).map (mkRecord dE sE),
      recordMatches c0.document_ref r = true := by
    intro r hr
    obtain ⟨c, hc, rfl⟩ := List.mem_map.mp hr
    exact (recordMatches_iff c0.document_ref (mkRecord dE sE c)).mpr (hsame c hc)
  have hcount2 : (store.filter (recordMatches c0.document_ref)).length ≠ rest.length + 1 := by
    simpa using hcount
  have hstore : (save_file_chunks_to_qdrant dE sE store (c0 :: rest)).store =
      store.filter (fun r => !(recordMatches c0.document_ref r))
        ++ (c0 :: rest).map (mkRecord dE sE) := by
    simp [save_file_chunks_to_qdrant, hcount2]
  have hops : (save_file_chunks_to_qdrant dE sE store (c0 :: rest)).ops =
      [StoreOp.deleteByFilter c0.document_ref,
       StoreOp.encodeDense ((c0 :: rest).map (fun c => c.text)),
       StoreOp.encodeSparse ((c0 :: rest).map (fun c => c.text)),
       StoreOp.uploadCollection ((c0 :: rest).map (mkRecord dE sE))] := by
    simp [save_file_chunks_to_qdrant, hcount2]
  refine ⟨hstore, ?_, hops⟩
  rw [hstore, List.filter_append, filter_filter_not, List.nil_append,
    List.filter_eq_self.mpr hfreshAll]

theorem upsert_count_mismatch_replaces_witness :
    (save_file_chunks_to_qdrant natEnc natEnc [mkRecord natEnc natEnc chunkStale]
        [chunkA, chunkB]).store =
      List.filter (fun r => !(recordMatches chunkA.document_ref r))
          [mkRecord natEnc natEnc chunkStale]
        ++ [chunkA, chunkB].map (mkRecord natEnc natEnc)
    ∧ (save_file_chunks_to_qdrant natEnc natEnc [mkRecord natEnc natEnc chunkStale]
        [chunkA, chunkB]).store.filter (recordMatches chunkA.document_ref) =
      [chunkA, chunkB].map (mkRecord natEnc natEnc)
    ∧ (save_file_chunks_to_qdrant natEnc natEnc [mkRecord natEnc natEnc chunkStale]
        [chunkA, chunkB]).ops =
      [StoreOp.deleteByFilter chunkA.document_ref,
       StoreOp.encodeDense ([chunkA, chunkB].map (fun c => c.text)),
       StoreOp.encodeSparse ([chunkA, chunkB].map (fun c => c.text)),
       StoreOp.uploadCollection ([chunkA, chunkB].map (mkRecord natEnc natEnc))] :=
  upsert_count_mismatch_replaces natEnc natEnc [mkRecord natEnc natEnc chunkStale]
    chunkA [chunkB] (by decide) (by decide)

/-- Cache key of the text extraction cache: the extractor version (the directory
component text-VERSION built from PDF_TO_TEXT_VERSION) together with the object
identity from which the s3 object name is deterministically derived (spec
section 6: the key is constructed from course, module and filename). -/
structure CacheKey where
  version : Nat
  objectRef : DocumentRef
deriving DecidableEq, Repr

/-- Errors raised by pipeline collaborators: a failing PDF extraction, or a
failing catalog fetch (raise_for_status in fetch_corpora). -/
inductive PipelineErr where
  | extractionFailed
  | fetchFailed
deriving DecidableEq, Repr

/-- Read a path of the cache filesystem; the newest write to a path wins. -/
def cacheGet (cache : List (CacheKey × String)) (k : CacheKey) : Option String :=
  match cache with
  | [] => none
  | (k2, v) :: rest => if k2 = k then some v else cacheGet rest k

/-- Write a path of the cache filesystem. -/
def cacheSet (cache : List (CacheKey × String)) (k : CacheKey) (v : String) :
    List (CacheKey × String) :=
  (k, v) :: cache

instance {ε α : Type} [DecidableEq ε] [DecidableEq α] : DecidableEq (Except ε α) := fun a b =>
  match a, b with
  | Except.ok x, Except.ok y => decidable_of_iff (x = y) (by simp)
  | Except.error x, Except.error y => decidable_of_iff (x = y) (by simp)
  | Except.ok _, Except.error _ => isFalse (fun h => Except.noConfusion h)
  | Except.error _, Except.ok _ => isFalse (fun h => Except.noConfusion h)

/-- Outcome of the text-cache step: the text or the propagated extraction error,
the cache filesystem afterwards, and whether extraction was invoked. -/
structure ExtractOutcome where
  result : Except PipelineErr String
  cache : List (CacheKey × String)
  extractionInvoked : Bool
deriving DecidableEq

/-- Embedding of the text-cache step of object_pipeline (prepare.py lines
90-104). When no artifact exists under the key, the source first opens the
cache path for writing, which creates an empty file at that path (open with
mode w), then runs the extraction and writes its output into the open file; an
extraction error propagates with the empty file left in place. When an artifact
exists, it is read back without running extraction. The collaborator result is
the extract argument. -/
def getOrExtract (extract : Except PipelineErr String)
    (cache : List (CacheKey × String)) (key : CacheKey) : ExtractOutcome :=
  match cacheGet cache key with
  | some cached => ⟨Except.ok cached, cache, false⟩
  | none =>
    let opened := cacheSet cache key ""
    match extract with
    | Except.error e => ⟨Except.error e, opened, true⟩
    | Except.ok output => ⟨Except.ok output, cacheSet opened key output, true⟩

/-- Sample cache key used by concrete witnesses. -/
def keyA : CacheKey := ⟨1, ⟨1, 2, "a.pdf"⟩⟩

/-- Claim C4, evaluated at the failing input: with an empty cache, when
extraction fails the error propagates to the caller, but an empty cache
artifact is left under the key, because prepare.py opens the cache file with
mode w before running the extraction (truncate-in-place, not
complete-then-rename). A later call finds this empty file and returns it as
cached text. -/
theorem extraction_failure_leaves_empty_artifact :
    (getOrExtract (Except.error PipelineErr.extractionFailed) [] keyA).result
        = Except.error PipelineErr.extractionFailed
    ∧ cacheGet (getOrExtract (Except.error PipelineErr.extractionFailed) [] keyA).cache keyA
        = some ""
    ∧ getOrExtract (Except.ok "recovered text")
        (getOrExtract (Except.error PipelineErr.extractionFailed) [] keyA).cache keyA
        = ⟨Except.ok "", (getOrExtract (Except.error PipelineErr.extractionFailed) [] keyA).cache,
           false⟩ := by
  decide

/-- Claim C6: a call whose key has a cached artifact returns it without invoking
extraction and leaves the cache unchanged; and for a key with no artifact,
running the step twice with a succeeding extractor invokes extraction on the
first call only, and both calls return the same text. -/
theorem extraction_cache_extracts_at_most_once (extract : Except PipelineErr String)
    (cache : List (CacheKey × String)) (key : CacheKey) (out v : String) :
    (cacheGet cache key = some v →
      getOrExtract extract cache key = ⟨Except.ok v, cache, false⟩)
    ∧ (cacheGet cache key = none →
        getOrExtract (Except.ok out) cache key
            = ⟨Except.ok out, cacheSet (cacheSet cache key "") key out, true⟩
        ∧ getOrExtract (Except.ok out) (getOrExtract (Except.ok out) cache key).cache key
            = ⟨Except.ok out, (getOrExtract (Except.ok out) cache key).cache, false⟩) := by
  constructor
  · intro h
    simp [getOrExtract, h]
  · intro h
    constructor
    · simp [getOrExtract, h]
    · simp [getOrExtract, h, cacheSet, cacheGet]

theorem extraction_cache_extracts_at_most_once_witness :
    getOrExtract (Except.ok "body") [(keyA, "cached body")] keyA
        = ⟨Except.ok "cached body", [(keyA, "cached body")], false⟩
    ∧ (getOrExtract (Except.ok "body") [] keyA
          = ⟨Except.ok "body", cacheSet (cacheSet [] keyA "") keyA "body", true⟩
        ∧ getOrExtract (Except.ok "body") (getOrExtract (Except.ok "body") [] keyA).cache keyA
          = ⟨Except.ok "body", (getOrExtract (Except.ok "body") [] keyA).cache, false⟩) :=
  ⟨(extraction_cache_extracts_at_most_once (Except.ok "body") [(keyA, "cached body")] keyA
      "body" "cached body").1 (by decide),
   (extraction_cache_extracts_at_most_once (Except.ok "body") [] keyA
      "body" "cached body").2 (by decide)⟩

/-- Modelled from the spec: the MoodleFileObject catalog-entry schema, whose
source file (src/modules/minio/schemas.py) is not available. The spec's
CatalogEntry has the stable composite identity (course_id, module_id, filename)
plus modification markers; prepare.py reads exactly course_id, module_id,
filename and the meta_prefix method from it. Structural equality of a full
entry models pydantic model_dump equality of all fields. -/
structure MoodleFileObject where
  course_id : Int
  module_id : Int
  filename : String
  timecreated : Option Int := none
  timemodified : Option Int := none
deriving DecidableEq, Repr

/-- Modelled from the spec: the Corpora response schema, whose source file
(src/modules/compute/schemas.py) is not available; prepare.py reads only its
moodle_files entry list. -/
structure Corpora where
  moodle_files : List MoodleFileObject
deriving DecidableEq, Repr

/-- Embedding of the chunk-construction part of object_pipeline (prepare.py
lines 105-125): clean the concatenation of the metadata preamble and the
extracted text, split the result, and tag each segment with the entry's
document-ref and its position as chunk_number. The collaborators are passed as
functions: metaPrefixFn models the meta_prefix method of MoodleFileObject
(source not available; per the spec a human-readable source description), clean
models clean_text and split models the split_text method of the chunker, both
from source files that are not available; per the spec the chunker is a
deterministic function of its input, as any Lean function is. -/
def object_pipeline_chunks (metaPrefixFn : MoodleFileObject → String)
    (clean : String → String) (split : String → List String)
    (obj : MoodleFileObject) (output : String) : List Chunk :=
  let page_text := clean (metaPrefixFn obj ++ output)
  let splitted := split page_text
  splitted.enum.map (fun js =>
    { text := js.2,
      document_ref := ⟨obj.course_id, obj.module_id, obj.filename⟩,
      chunk_ref := ⟨js.1⟩ })

/-- Claim C7: every chunk emitted for a catalog entry carries the entry's
(course_id, module_id, filename) composite key as document-ref; the chunk
numbers are 0, 1, 2, ... in segment order; and the chunk texts are exactly the
segments of the cleaned preamble-plus-text, so equal entries and texts yield
equal tagged chunk sequences. -/
theorem pipeline_chunks_tagging (metaPrefixFn : MoodleFileObject → String)
    (clean : String → String) (split : String → List String)
    (obj : MoodleFileObject) (output : String) :
    (∀ c ∈ object_pipeline_chunks metaPrefixFn clean split obj output,
        c.document_ref = ⟨obj.course_id, obj.module_id, obj.filename⟩)
    ∧ (object_pipeline_chunks metaPrefixFn clean split obj output).map
        (fun c => c.chunk_ref.chunk_number)
        = List.range (object_pipeline_chunks metaPrefixFn clean split obj output).length
    ∧ (object_pipeline_chunks metaPrefixFn clean split obj output).map (fun c => c.text)
        = split (clean (metaPrefixFn obj ++ output)) := by
  refine ⟨?_, ?_, ?_⟩
  · intro c hc
    simp only [object_pipeline_chunks, List.mem_map] at hc
    obtain ⟨js, _, rfl⟩ := hc
    rfl
  · simp only [object_pipeline_chunks, List.map_map, List.length_map]
    have h1 : ((split (clean (metaPrefixFn obj ++ output))).enum.map
        (fun js : Nat × String => js.1))
        = List.range (split (clean (metaPrefixFn obj ++ output))).length :=
      List.enum_map_fst (split (clean (metaPrefixFn obj ++ output)))
    rw [List.enum_length]
    exact h1
  · simp only [object_pipeline_chunks, List.map_map]
    exact List.enum_map_snd (split (clean (metaPrefixFn obj ++ output)))

/-- Sample catalog entry used by concrete witnesses. -/
def objA : MoodleFileObject := ⟨1, 2, "a.pdf", none, none⟩

/-- Concrete splitter used by concrete witnesses. -/
def twoSegments : String → List String := fun s => [s, "tail of " ++ s]

theorem pipeline_chunks_tagging_witness :
    (∀ c ∈ object_pipeline_chunks (fun o => o.filename) id twoSegments objA "body",
        c.document_ref = ⟨objA.course_id, objA.module_id, objA.filename⟩)
    ∧ (object_pipeline_chunks (fun o => o.filename) id twoSegments objA "body").map
        (fun c => c.chunk_ref.chunk_number)
        = List.range (object_pipeline_chunks (fun o => o.filename)
            id twoSegments objA "body").length
    ∧ (object_pipeline_chunks (fun o => o.filename) id twoSegments objA "body").map
        (fun c => c.text)
        = twoSegments (id ((fun o : MoodleFileObject => o.filename) objA ++ "body")) :=
  pipeline_chunks_tagging (fun o => o.filename) id twoSegments objA "body"

/-- Suffix test over the characters of a string, modelling the endswith method
of python strings used by the filter in corpora_to_qdrant (prepare.py line
173). -/
def endsWithStr (s suffix : String) : Bool := suffix.data.isSuffixOf s.data

/-- Result of one corpora_to_qdrant cycle: the store afterwards, the write
operations performed, and the error that escaped the cycle, when one did. -/
structure RunResult (D S : Type) where
  store : List (IndexedRecord D S)
  ops : List (StoreOp D S)
  err : Option PipelineErr
deriving DecidableEq

/-- Embedding of the result-consumption loop of corpora_to_qdrant (prepare.py
lines 175-180) over the already-filtered item list, consuming worker results in
list order (one admissible schedule of imap_unordered). Each non-empty chunk
batch is saved; the loop body has no handler, so an exception raised by a
worker propagates at the consumption point: the error is returned, and no
further result is consumed. -/
def processItems {D S : Type} (pipeline : MoodleFileObject → Except PipelineErr (List Chunk))
    (dE : String → D) (sE : String → S) (store : List (IndexedRecord D S)) :
    List MoodleFileObject → RunResult D S
  | [] => ⟨store, [], none⟩
  | item :: rest =>
    match pipeline item with
    | Except.error e => ⟨store, [], some e⟩
    | Except.ok chunks =>
      if chunks.isEmpty then processItems pipeline dE sE store rest
      else
        let r := save_file_chunks_to_qdrant dE sE store chunks
        let r2 := processItems pipeline dE sE r.store rest
        ⟨r2.store, r.ops ++ r2.ops, r2.err⟩

/-- The item filter of corpora_to_qdrant (prepare.py line 173): keep exactly the
entries whose filename ends in .pdf. -/
def pdfItems (corpora : Corpora) : List MoodleFileObject :=
  corpora.moodle_files.filter (fun item => endsWithStr item.filename ".pdf")

/-- Embedding of corpora_to_qdrant (prepare.py lines 168-182): filter the
catalog entries to pdf filenames and run the per-document pipeline over them,
saving each non-empty chunk batch. -/
def corpora_to_qdrant {D S : Type}
    (pipeline : MoodleFileObject → Except PipelineErr (List Chunk))
    (dE : String → D) (sE : String → S) (store : List (IndexedRecord D S))
    (corpora : Corpora) : RunResult D S :=
  processItems pipeline dE sE store (pdfItems corpora)

/-- Embedding of no_corpora_changes (prepare.py lines 185-193): with no previous
catalog the answer is False; otherwise compare the model_dump lists of the two
entry lists, which is order-sensitive structural equality of all fields. -/
def no_corpora_changes (prev_corpora : Option Corpora) (corpora : Corpora) : Bool :=
  match prev_corpora with
  | none => false
  | some prev => prev.moodle_files == corpora.moodle_files

/-- Result of one iteration of the polling loop in main: the stored previous
catalog, the store, whether corpora_to_qdrant was invoked, and the error that
escaped the loop body, when one did. -/
structure CycleResult (D S : Type) where
  prev : Option Corpora
  store : List (IndexedRecord D S)
  invoked : Bool
  err : Option PipelineErr
deriving DecidableEq

/-- Embedding of one iteration of the while-True loop of main (prepare.py lines
199-210). The fetched argument is the outcome of fetch_corpora, whose
raise_for_status raises on an HTTP error. prev_corpora is assigned only after
corpora_to_qdrant returns normally. The loop body has no handler, so an
error in err escapes the loop and terminates the process. -/
def mainStep {D S : Type} (pipeline : MoodleFileObject → Except PipelineErr (List Chunk))
    (dE : String → D) (sE : String → S) (prev : Option Corpora)
    (store : List (IndexedRecord D S)) (fetched : Except PipelineErr Corpora) :
    CycleResult D S :=
  match fetched with
  | Except.error e => ⟨prev, store, false, some e⟩
  | Except.ok corpora =>
    if no_corpora_changes prev corpora then
      ⟨prev, store, false, none⟩
    else
      let r := corpora_to_qdrant pipeline dE sE store corpora
      match r.err with
      | some e => ⟨prev, r.store, true, some e⟩
      | none => ⟨some corpora, r.store, true, none⟩

/-- Claim C8: the items submitted to the pipeline are exactly the catalog
entries whose filename ends in .pdf, and a catalog with no such entry causes no
pipeline call and no store effect at all. -/
theorem pdf_filter_exactly (c : Corpora) :
    (∀ x ∈ pdfItems c, endsWithStr x.filename ".pdf" = true ∧ x ∈ c.moodle_files)
    ∧ (∀ x ∈ c.moodle_files, endsWithStr x.filename ".pdf" = true → x ∈ pdfItems c)
    ∧ (∀ (D S : Type) (pipeline : MoodleFileObject → Except PipelineErr (List Chunk))
          (dE : String → D) (sE : String → S) (store : List (IndexedRecord D S)),
        (∀ x ∈ c.moodle_files, endsWithStr x.filename ".pdf" = false) →
        corpora_to_qdrant pipeline dE sE store c = ⟨store, [], none⟩) := by
  refine ⟨?_, ?_, ?_⟩
  · intro x hx
    have h := List.mem_filter.mp hx
    exact ⟨h.2, h.1⟩
  · intro x hx hp
    exact List.mem_filter.mpr ⟨hx, hp⟩
  · intro D S pipeline dE sE store hall
    have hnil : pdfItems c = [] := by
      refine List.filter_eq_nil_iff.mpr ?_
      intro a ha
      simp [hall a ha]
    rw [corpora_to_qdrant, hnil]
    rfl

/-- Sample non-pdf catalog entry used by concrete witnesses. -/
def objTxt : MoodleFileObject := ⟨3, 4, "notes.txt", none, none⟩

/-- Sample catalog with one pdf entry and one non-pdf entry. -/
def corpMixed : Corpora := ⟨[objA, objTxt]⟩

theorem pdf_filter_exactly_witness :
    (∀ x ∈ pdfItems corpMixed, endsWithStr x.filename ".pdf" = true
        ∧ x ∈ corpMixed.moodle_files)
    ∧ (∀ x ∈ corpMixed.moodle_files, endsWithStr x.filename ".pdf" = true → x ∈ pdfItems corpMixed)
    ∧ (∀ (D S : Type) (pipeline : MoodleFileObject → Except PipelineErr (List Chunk))
          (dE : String → D) (sE : String → S) (store : List (IndexedRecord D S)),
        (∀ x ∈ corpMixed.moodle_files, endsWithStr x.filename ".pdf" = false) →
        corpora_to_qdrant pipeline dE sE store corpMixed = ⟨store, [], none⟩) :=
  pdf_filter_exactly corpMixed

/-- Claim C9: with no previous catalog stored, no_corpora_changes answers False
for every catalog, so the first iteration after startup always invokes
corpora_to_qdrant, including over an empty entry list. -/
theorem first_cycle_always_runs {D S : Type}
    (pipeline : MoodleFileObject → Except PipelineErr (List Chunk))
    (dE : String → D) (sE : String → S) (store : List (IndexedRecord D S)) (c : Corpora) :
    no_corpora_changes none c = false
    ∧ (mainStep pipeline dE sE none store (Except.ok c)).invoked = true := by
  refine ⟨rfl, ?_⟩
  cases hr : (corpora_to_qdrant pipeline dE sE store c).err <;>
    simp [mainStep, no_corpora_changes, hr]

/-- Claim C10: a document whose pipeline result is an empty chunk list
contributes nothing to the cycle: the consumption loop skips it entirely, and
the writer itself returns an unchanged store and an empty operation trace on an
empty batch, so records already stored under any document-ref stay as they
are. -/
theorem empty_chunks_cause_no_write {D S : Type}
    (pipeline : MoodleFileObject → Except PipelineErr (List Chunk))
    (dE : String → D) (sE : String → S) (store : List (IndexedRecord D S))
    (item : MoodleFileObject) (rest : List MoodleFileObject)
    (hempty : pipeline item = Except.ok []) :
    processItems pipeline dE sE store (item :: rest) = processItems pipeline dE sE store rest
    ∧ save_file_chunks_to_qdrant dE sE store ([] : List Chunk) = ⟨store, []⟩ := by
  refine ⟨?_, rfl⟩
  simp [processItems, hempty]

theorem empty_chunks_cause_no_write_witness :
    processItems (fun _ => Except.ok []) natEnc natEnc [mkRecord natEnc natEnc chunkA] [objA]
        = processItems (fun _ => Except.ok []) natEnc natEnc [mkRecord natEnc natEnc chunkA] []
    ∧ save_file_chunks_to_qdrant natEnc natEnc [mkRecord natEnc natEnc chunkA] ([] : List Chunk)
        = ⟨[mkRecord natEnc natEnc chunkA], []⟩ :=
  empty_chunks_cause_no_write (fun _ => Except.ok []) natEnc natEnc
    [mkRecord natEnc natEnc chunkA] objA [] rfl

/-- After an iteration over a fetched catalog that raised no error, the stored
previous catalog has exactly the entry list of that catalog: either the
pipeline ran and stored it, or it was skipped because the stored one already
compared equal. -/
theorem mainStep_prev_moodle_files {D S : Type}
    (pipeline : MoodleFileObject → Except PipelineErr (List Chunk))
    (dE : String → D) (sE : String → S) (prev : Option Corpora)
    (store : List (IndexedRecord D S)) (c : Corpora)
    (h : (mainStep pipeline dE sE prev store (Except.ok c)).err = none) :
    ∃ p, (mainStep pipeline dE sE prev store (Except.ok c)).prev = some p
      ∧ p.moodle_files = c.moodle_files := by
  cases hch : no_corpora_changes prev c with
  | true =>
    cases prev with
    | none => simp [no_corpora_changes] at hch
    | some p =>
      have hpf : p.moodle_files = c.moodle_files := by
        simpa [no_corpora_changes] using hch
      exact ⟨p, by simp [mainStep, hch], hpf⟩
  | false =>
    cases hr : (corpora_to_qdrant pipeline dE sE store c).err with
    | some e =>
      exfalso
      simp [mainStep, hch, hr] at h
    | none =>
      exact ⟨c, by simp [mainStep, hch, hr], rfl⟩

/-- Claim C5: across two consecutive polls whose fetches succeed, the pipeline
is invoked on the second poll exactly when the second snapshot's entry list
differs structurally from the first snapshot's entry list. -/
theorem reconciliation_change_detection {D S : Type}
    (pipeline : MoodleFileObject → Except PipelineErr (List Chunk))
    (dE : String → D) (sE : String → S) (prev0 : Option Corpora)
    (store0 store1 : List (IndexedRecord D S)) (c1 c2 : Corpora)
    (h1 : (mainStep pipeline dE sE prev0 store0 (Except.ok c1)).err = none) :
    ((mainStep pipeline dE sE (mainStep pipeline dE sE prev0 store0 (Except.ok c1)).prev
        store1 (Except.ok c2)).invoked = true
      ↔ c2.moodle_files ≠ c1.moodle_files) := by
  obtain ⟨p, hp, hpf⟩ := mainStep_prev_moodle_files pipeline dE sE prev0 store0 c1 h1
  rw [hp]
  cases hch : no_corpora_changes (some p) c2 with
  | true =>
    have heq : p.moodle_files = c2.moodle_files := by
      simpa [no_corpora_changes] using hch
    have hc21 : c2.moodle_files = c1.moodle_files := by rw [← heq, hpf]
    simp [mainStep, hch, hc21]
  | false =>
    have hne : ¬(p.moodle_files = c2.moodle_files) := by
      simpa [no_corpora_changes] using hch
    have hc21 : c2.moodle_files ≠ c1.moodle_files := by
      intro he
      exact hne (by rw [hpf, he])
    cases hr : (corpora_to_qdrant pipeline dE sE store1 c2).err <;>
      simp [mainStep, hch, hr, hc21]

/-- Sample pdf entry differing from objA only in its filename. -/
def objB : MoodleFileObject := ⟨1, 2, "b.pdf", none, none⟩

/-- One-entry catalog around objA. -/
def corpA : Corpora := ⟨[objA]⟩

/-- One-entry catalog around objB, structurally different from corpA. -/
def corpB : Corpora := ⟨[objB]⟩

theorem reconciliation_change_detection_witness :
    ((mainStep (fun _ => Except.ok []) natEnc natEnc
        (mainStep (fun _ => Except.ok []) natEnc natEnc none [] (Except.ok corpA)).prev
        [] (Except.ok corpB)).invoked = true
      ↔ corpB.moodle_files ≠ corpA.moodle_files) :=
  reconciliation_change_detection (fun _ => Except.ok []) natEnc natEnc none [] [] corpA corpB
    (by decide)

/-- Sample catalog entry whose extraction fails. -/
def objBad : MoodleFileObject := ⟨1, 2, "bad.pdf", none, none⟩

/-- Sample catalog entry whose extraction succeeds. -/
def objGood : MoodleFileObject := ⟨1, 2, "good.pdf", none, none⟩

/-- The chunk the pipeline produces for objGood. -/
def chunkGood : Chunk := ⟨"good text", ⟨1, 2, "good.pdf"⟩, ⟨0⟩⟩

/-- Catalog holding the failing entry before the succeeding one. -/
def corpFail : Corpora := ⟨[objBad, objGood]⟩

/-- Pipeline collaborator that raises on objBad and yields one chunk for every
other entry. -/
def pipelineFail : MoodleFileObject → Except PipelineErr (List Chunk) := fun item =>
  if item.filename == "bad.pdf" then Except.error PipelineErr.extractionFailed
  else Except.ok [chunkGood]

/-- Claim C3 is false on the code: in a cycle over a catalog with a failing
document and a succeeding one, the failure is not isolated. corpora_to_qdrant
has no handler, so the error escapes the cycle, the succeeding document is
never indexed (no store write at all), and the error then escapes the loop body
of main, which would terminate the process. -/
theorem error_isolation_counterexample :
    (corpora_to_qdrant pipelineFail natEnc natEnc [] corpFail).err
        = some PipelineErr.extractionFailed
    ∧ (corpora_to_qdrant pipelineFail natEnc natEnc [] corpFail).store = []
    ∧ (corpora_to_qdrant pipelineFail natEnc natEnc [] corpFail).ops = []
    ∧ (mainStep pipelineFail natEnc natEnc none [] (Except.ok corpFail)).err
        = some PipelineErr.extractionFailed := by
  decide

/-- Claim C3 as amended: a per-document pipeline failure propagates. The cycle
stops at the failing document, leaving the store as it was at that point with
no further document consumed, and the error escapes the loop body of main,
terminating the long-running loop. -/
theorem error_aborts_cycle_and_loop {D S : Type}
    (pipeline : MoodleFileObject → Except PipelineErr (List Chunk))
    (dE : String → D) (sE : String → S) (store : List (IndexedRecord D S))
    (item : MoodleFileObject) (rest : List MoodleFileObject) (e : PipelineErr)
    (hfail : pipeline item = Except.error e) :
    processItems pipeline dE sE store (item :: rest) = ⟨store, [], some e⟩
    ∧ ∀ (prev : Option Corpora) (c : Corpora), pdfItems c = item :: rest →
        no_corpora_changes prev c = false →
        (mainStep pipeline dE sE prev store (Except.ok c)).err = some e := by
  have h1 : processItems pipeline dE sE store (item :: rest) = ⟨store, [], some e⟩ := by
    simp [processItems, hfail]
  refine ⟨h1, ?_⟩
  intro prev c hpdf hch
  simp [mainStep, hch, corpora_to_qdrant, hpdf, h1]

theorem error_aborts_cycle_and_loop_witness :
    processItems pipelineFail natEnc natEnc [] [objBad, objGood]
        = ⟨[], [], some PipelineErr.extractionFailed⟩
    ∧ (mainStep pipelineFail natEnc natEnc none [] (Except.ok corpFail)).err
        = some PipelineErr.extractionFailed :=
  ⟨(error_aborts_cycle_and_loop pipelineFail natEnc natEnc [] objBad [objGood]
      PipelineErr.extractionFailed (by decide)).1,
   (error_aborts_cycle_and_loop pipelineFail natEnc natEnc [] objBad [objGood]
      PipelineErr.extractionFailed (by decide)).2 none corpFail (by decide) (by decide)⟩

end Prepare
